import Mathlib

/-!
Verification development for the `oreo` expense-receipt orchestrator.

The definitions below are a shallow embedding of `src/orchestrator.py`
(the response parser `_parse_response`, the tool dispatcher `_execute_tool`
and the agent loop `_agent_loop`) and of `update_expense_budget` from
`src/agents.py`.  Python strings are modelled as `List Char`, Python/JSON
values as the inductive `PyJson`, and the external collaborators that are
not part of the repository (the LLM client, `json.loads`/`json.dumps`, the
tool implementations behind the registry) are parameters of the embedding
(fields of `LoopEnv`).  An uncaught Python exception is modelled by the
`LoopOutcome.raised` constructor.
-/

/-- Model of a Python/JSON value as handled by the orchestrator
(`json.loads` results, tool parameters and tool results). -/
inductive PyJson where
  | obj : List (String × PyJson) → PyJson
  | arr : List PyJson → PyJson
  | str : String → PyJson
  | int : Int → PyJson
  | bool : Bool → PyJson
  | null : PyJson

/-- Characters stripped by Python `str.strip()` (ASCII whitespace). -/
def pyIsSpace (c : Char) : Bool :=
  c = ' ' ∨ c = '\t' ∨ c = '\n' ∨ c = '\x0d' ∨ c = '\x0b' ∨ c = '\x0c'

/-- Model of Python `str.strip()`: drop leading and trailing whitespace. -/
def pyStrip (s : List Char) : List Char :=
  ((s.dropWhile pyIsSpace).reverse.dropWhile pyIsSpace).reverse

/-- Model of Python `str.lower()` on ASCII text. -/
def pyLower (s : List Char) : List Char :=
  s.map Char.toLower

/-- Fuel-driven scan for the first occurrence of `pat` in `s` at a
position `≥ start`; the fuel makes the recursion structural so concrete
instances evaluate by `rfl`/`decide`. -/
def occursFromFuel (pat s : List Char) : Nat → Nat → Option Nat
  | _, 0 => none
  | start, fuel + 1 =>
    if start + pat.length ≤ s.length then
      if pat.isPrefixOf (s.drop start) then some start
      else occursFromFuel pat s (start + 1) fuel
    else none

/-- First occurrence of the literal substring `pat` in `s` at a position
`≥ start` (Python `str.find(pat, start)`, with `none` for `-1`). -/
def occursFrom (pat s : List Char) (start : Nat) : Option Nat :=
  occursFromFuel pat s start (s.length + 1 - start)

/-- Python substring containment test (`pat in s`). -/
def containsSub (pat s : List Char) : Bool :=
  (occursFrom pat s 0).isSome

/-- Opening delimiter of a tagged block, e.g. `<tool>`. -/
def tagOpen (tag : String) : List Char :=
  ("<" ++ tag ++ ">").toList

/-- Closing delimiter of a tagged block, e.g. `</tool>`. -/
def tagClose (tag : String) : List Char :=
  ("</" ++ tag ++ ">").toList

/-- Model of `re.search(r"<tag>(.*?)</tag>", s, re.DOTALL)`: the leftmost
match starts at the first occurrence of the opener and its group is the
shortest text reaching the first closer after it. -/
def searchTagBlock (tag : String) (s : List Char) : Option (List Char) :=
  match occursFrom (tagOpen tag) s 0 with
  | none => none
  | some i =>
    match occursFrom (tagClose tag) s (i + (tagOpen tag).length) with
    | none => none
    | some j => some ((s.drop (i + (tagOpen tag).length)).take (j - (i + (tagOpen tag).length)))

/-- One step of `re.findall(r"<tool>.*?</tool>", s)` from position `pos`:
the next non-overlapping match, returned as (opener position, closer
position). -/
def matchToolBlockFrom (s : List Char) (pos : Nat) : Option (Nat × Nat) :=
  match occursFrom (tagOpen "tool") s pos with
  | none => none
  | some i =>
    match occursFrom (tagClose "tool") s (i + (tagOpen "tool").length) with
    | none => none
    | some j => some (i, j)

/-- Whether `re.findall(r"<tool>.*?</tool>", s)` yields more than one
match (`len(tool_tags) > 1` in `_parse_response`): a first match exists
and a further match starts after its end. -/
def multipleToolBlocks (s : List Char) : Bool :=
  match matchToolBlockFrom s 0 with
  | none => false
  | some (_, j) => (matchToolBlockFrom s (j + (tagClose "tool").length)).isSome

/-- Truncation step of `_parse_response` (orchestrator.py lines 162-172):
when more than one tool block is present, cut the text at the second
occurrence of `<tool>`. -/
def truncateMultiBlocks (s : List Char) : List Char :=
  if multipleToolBlocks s then
    match occursFrom (tagOpen "tool") s 0 with
    | none => s
    | some i =>
      match occursFrom (tagOpen "tool") s (i + 1) with
      | none => s
      | some k => s.take k
  else s

/-- Parsed form of one assistant reply (`_parse_response`'s result
dictionary): a tool call, a reasoning-only reply, or an error. -/
inductive ParsedResponse where
  | toolCall (tool : String) (parameters : PyJson) (finalToolCall : Bool) (reasoning : String)
  | reasoning (text : String)
  | error (message : String)

/-- Extraction of the `final_tool_call` flag block (orchestrator.py
lines 203-209): strip, lower-case, and compare with `true`/`yes`/`1`;
absent block means `false`. -/
def final_flag_of (s : List Char) : Bool :=
  match searchTagBlock "final_tool_call" s with
  | some f =>
    (pyLower (pyStrip f)).asString = "true" ∨ (pyLower (pyStrip f)).asString = "yes"
      ∨ (pyLower (pyStrip f)).asString = "1"
  | none => false

/-- Extraction of the optional `reasoning` block for audit
(orchestrator.py lines 216-218). -/
def reasoning_text_of (s : List Char) : String :=
  match searchTagBlock "reasoning" s with
  | some r => (pyStrip r).asString
  | none => ""

/-- Tool-call extraction of `_parse_response` (orchestrator.py lines
184-226): tool name, parameters (empty object when the block is absent,
`Error` when `json.loads` fails), the final flag — forced to `true` for
`send_email` — and the audit reasoning. -/
def parse_tool_call (jsonLoads : String → Option PyJson) (s : List Char) : ParsedResponse :=
  match searchTagBlock "tool" s with
  | none => .error "No tool specified in the response"
  | some toolContent =>
    match searchTagBlock "parameters" s with
    | some p =>
      match jsonLoads (pyStrip p).asString with
      | none => .error "Invalid JSON in parameters"
      | some v =>
        .toolCall (pyStrip toolContent).asString v
          (if (pyStrip toolContent).asString = "send_email" then true else final_flag_of s)
          (reasoning_text_of s)
    | none =>
      .toolCall (pyStrip toolContent).asString (.obj [])
        (if (pyStrip toolContent).asString = "send_email" then true else final_flag_of s)
        (reasoning_text_of s)

/-- Body of `_parse_response` after the multi-block truncation
(orchestrator.py lines 174-230).  `jsonLoads` is the external
`json.loads`, returning `none` on a `JSONDecodeError`. -/
def parseCore (jsonLoads : String → Option PyJson) (s : List Char) : ParsedResponse :=
  if ¬ containsSub (tagOpen "tool") s ∧ containsSub (tagOpen "reasoning") s then
    match searchTagBlock "reasoning" s with
    | some content => .reasoning (pyStrip content).asString
    | none => parse_tool_call jsonLoads s
  else parse_tool_call jsonLoads s

/-- Model of `Orchestrator._parse_response` (orchestrator.py lines
151-230): truncate extra tool blocks, then decode the reply. -/
def parse_response (jsonLoads : String → Option PyJson) (response : String) : ParsedResponse :=
  parseCore jsonLoads (truncateMultiBlocks response.toList)

/-- One conversation turn (`{"role": ..., "content": ...}`). -/
structure Msg where
  role : String
  content : String
deriving DecidableEq

/-- Python truthiness of the optional `possible_duplicate_data` value
(`if possible_duplicate_data:`): `None`, empty containers, `0`, `""` and
`False` are falsy. -/
def pyTruthyOpt : Option PyJson → Bool
  | none => false
  | some (.obj l) => !l.isEmpty
  | some (.arr l) => !l.isEmpty
  | some (.str s) => !s.isEmpty
  | some (.int n) => n != 0
  | some (.bool b) => b
  | some .null => false

/-- Python dict item assignment `d[k] = v`: replace the value of an
existing key in place, otherwise append the new pair. -/
def pySetItem {β : Type} (d : List (String × β)) (k : String) (v : β) : List (String × β) :=
  if d.any (fun kv => kv.1 = k) then d.map (fun kv => if kv.1 = k then (k, v) else kv)
  else d ++ [(k, v)]

/-- Names of the fixed tool registry `self.available_tools`
(orchestrator.py lines 39-45). -/
def available_tools : List String :=
  ["get_employee_data", "update_expense_budget", "check_location_proximity",
   "is_duplicate_receipt", "send_email"]

/-- External collaborators of the agent loop, not part of the repository:
the stdlib JSON codec (`json.loads` returns `none` on `JSONDecodeError`;
`jsonDumps` is `json.dumps(..., indent=2)`), the LLM chat completion
(`model` maps the request messages to the reply text), and the behaviour
of the registered tool callables (`impl`; `.error` models the callable
raising an exception). -/
structure LoopEnv where
  jsonLoads : String → Option PyJson
  jsonDumps : PyJson → String
  model : List Msg → String
  impl : String → List (String × PyJson) → Except String PyJson

/-- Construction of `exec_params` in `_execute_tool` (orchestrator.py
lines 128-138): strip `final_tool_call`, conditionally add the original
image and duplicate payload, then inject `file_id`, `employee_id` and
`max_iterations`. -/
def mergeExecParams (parameters : List (String × PyJson)) (fileId employeeId : PyJson)
    (maxIterations : Nat) (originImg : String) (dup : Option PyJson) :
    List (String × PyJson) :=
  let ep := parameters.filter (fun kv => kv.1 ≠ "final_tool_call")
  let ep := if pyTruthyOpt dup then
      pySetItem (pySetItem ep "origin_image_base_64" (.str originImg))
        "possible_duplicate_data" (dup.getD .null)
    else ep
  pySetItem (pySetItem (pySetItem ep "file_id" fileId) "employee_id" employeeId)
    "max_iterations" (.int maxIterations)

/-- Model of `Orchestrator._execute_tool` (orchestrator.py lines
103-148): look the tool up in the registry, merge the parameters, invoke
it, and convert any exception into an `{"error": ...}` payload.  The
result type `PyJson` (not `Except`) reflects that the `try/except` block
lets no exception escape. -/
def execute_tool (env : LoopEnv) (fileId employeeId : PyJson) (maxIterations : Nat)
    (toolName : String) (parameters : List (String × PyJson))
    (originImg : String) (dup : Option PyJson) : PyJson :=
  if toolName ∈ available_tools then
    match env.impl toolName (mergeExecParams parameters fileId employeeId maxIterations originImg dup) with
    | .ok r => r
    | .error e => .obj [("error", .str ("Error executing tool " ++ toolName ++ ": " ++ e))]
  else .obj [("error", .str ("Tool " ++ toolName ++ " not found"))]

/-- Receipt-level fields of the `context` record (orchestrator.py lines
85-92); the agent loop reads them but never reassigns them. -/
structure ReceiptCtx where
  receiptType : String
  receiptContent : String
  applicableRule : String
  employeeId : String
  fileId : String
deriving DecidableEq

/-- Model of `_generate_system_prompt` (orchestrator.py lines 402-461),
reproducing the f-string template literally (braces of the template are
written as escapes). -/
def generate_system_prompt (rctx : ReceiptCtx) (dup : Option PyJson) : String :=
  "You are an AI assistant that helps process receipts for expense reimbursement based on business rules.\n\n###RECEIPT INFORMATION:\nType: "
  ++ rctx.receiptType
  ++ "\nContent: "
  ++ rctx.receiptContent
  ++ "\n\n###APPLICABLE BUSINESS RULES:\n"
  ++ rctx.applicableRule
  ++ "\n\n###YOUR TASK:\nAnalyze the receipt information and determine what actions need to be taken. You have access to the following tools:\n\n"
  ++ "1. get_employee_data -> Gives back employee name, email id, employee level and current expenses\nParameters: \x7b \"employee_id\": \"EMPLOYEE_ID\" \x7d\n\n"
  ++ "2. update_expense_budget -> Gives back success message when expense is updated\nParameters: \x7b \"employee_id\": \"EMPLOYEE_ID\", \"expense_type\": \"TYPE\", \"amount\": VALUE, \"increment\": BOOLEAN \x7d\n\n"
  ++ "3. check_location_proximity -> Gives back true or false \nParameters: \x7b \"src_address\": \"SOURCE_ADDRESS\", \"dest_address\": \"DESTINATION_ADDRESS\" \x7d\n\n"
  ++ "4. send_email -> Gives back success message when email is sent\nParameters: \x7b \"email_id\": \"EMPLOYEE_EMAIL_ADDRESS\", \"subject\": \"EMAIL_SUBJECT\", \"content\": \"EMAIL_CONTENT\" \x7d\n"
  ++ (if pyTruthyOpt dup then
      "\n5. is_duplicate_receipt -> Gives back if receipt is a duplicate or not and justication\nParameters: \x7b \"employee_id\": \"EMPLOYEE_ID\" \x7d\n"
    else "")
  ++ "\n\n###STRICT RESPONSE FORMAT:\n<reasoning>Your reasoning about what to do next, also consider if this will be final tool call</reasoning>\n<tool>tool_name</tool>\n<parameters>\n\x7b\n    \"param1\": \"value1\",\n    \"param2\": \"value2\"\n\x7d\n</parameters>\n<final_tool_call>true_or_false</final_tool_call>\n\n"
  ++ "###IMPORTANT RULES:\n- **ALWAYS generate ONLY one tool call at a time**\n- **ALWAYS check all business rules**\n- **set <final_tool_call> to true only when you are done with all operations and want to end the process.**\n- **If for validation purpose, a tool is NOT available, perform it inside the reasoning and then continue with the next step**\n- NEVER fabricate your own rules, ONLY refer to applicable business rules\n- Only send email as the final step of the process\n- Email content should have greeting with name, body and finally outro saying \"From HR Bot\" with all three sections separated by newlines\n"
  ++ (if pyTruthyOpt dup then
      "\n- If a duplicate receipt is confirmed, get employee data and send email to employee with justification\n"
    else "")
  ++ "\n"

/-- Seed user turn of the conversation (orchestrator.py lines 275-280). -/
def initial_user_prompt (receiptType employeeId : String) (dupTruthy : Bool) : String :=
  "Process this " ++ receiptType ++ " receipt for employee ID: " ++ employeeId
  ++ ".\n\n    Start by making ONE tool call at a time to gather information and complete the workflow.\n    "
  ++ (if dupTruthy then
      "\nIMPORTANT: There are high chances of this receipt/invoice being a duplicate, perform a duplicate to confirm."
    else "")
  ++ "\n    "

/-- Format-correction user turn appended after a parse error
(orchestrator.py lines 325-331). -/
def response_error_message : String :=
  "<response_error>\n    Please provide a single, valid tool call or reasoning. Format: \n    <reasoning>Your detailed reasoning</reasoning>\n    <tool>tool_name</tool>\n    <parameters>\x7b...\x7d</parameters>\n    <final_tool_call>true/false</final_tool_call>\n    </response_error>"

/-- Validation-acknowledged user turn appended after a reasoning-only
reply (orchestrator.py lines 337-339). -/
def validation_result_message : String :=
  "<validation_result>\n    Validation processed. Continue to the next step.\n    </validation_result>"

/-- Unknown-tool user turn listing the registry and the invalid name
(orchestrator.py lines 386-388). -/
def tool_error_message (toolName : String) : String :=
  "<tool_error>\n    Tool \x27" ++ toolName
  ++ "\x27 not found. Available tools: get_employee_data, update_expense_budget, check_location_proximity, is_duplicate_receipt, send_email\n    </tool_error>"

/-- Tool-result user turn wrapping the JSON-serialized result
(orchestrator.py lines 365-368). -/
def tool_result_message (toolName dumped : String) : String :=
  "<tool_result>\n    <tool>" ++ toolName ++ "</tool>\n    <result>" ++ dumped
  ++ "</result>\n    </tool_result>"

/-- Request construction of one loop pass (orchestrator.py lines
291-298): the system prompt followed by the whole conversation so far. -/
def build_messages (sysPrompt : String) (conversation : List Msg) : List Msg :=
  ⟨"system", sysPrompt⟩ :: conversation

/-- Observable state of one loop run: the conversation
(`context["conversation"]`), plus instrumentation recording the tool
dispatches performed, the requests sent to the model, and the value of
`iteration_count`. -/
structure LoopTrace where
  conversation : List Msg
  calls : List (String × List (String × PyJson))
  requests : List (List Msg)
  iterations : Nat

/-- Result of `_agent_loop`: the `status=completed` returns (with the
final-tool message for line 379, without for line 400), the
`status=timeout` return (line 394), or an uncaught Python exception
escaping the loop (`raised`). -/
inductive LoopOutcome where
  | completed (message : Option String) (tr : LoopTrace)
  | timeout (message : String) (tr : LoopTrace)
  | raised (error : String) (tr : LoopTrace)

/-- Status string of an outcome. -/
def LoopOutcome.statusOf : LoopOutcome → String
  | .completed _ _ => "completed"
  | .timeout _ _ => "timeout"
  | .raised _ _ => "raised"

/-- Trace carried by an outcome. -/
def LoopOutcome.trOf : LoopOutcome → LoopTrace
  | .completed _ tr => tr
  | .timeout _ tr => tr
  | .raised _ tr => tr

/-- Message carried by an outcome. -/
def LoopOutcome.messageOf : LoopOutcome → Option String
  | .completed m _ => m
  | .timeout m _ => some m
  | .raised m _ => some m

/-- Code after the `while` loop of `_agent_loop` (orchestrator.py lines
391-400): timeout when the iteration ceiling was reached, otherwise the
bare completed return. -/
def post_loop (maxIterations : Nat) (tr : LoopTrace) : LoopOutcome :=
  if maxIterations ≤ tr.iterations then
    .timeout ("Process timed out after " ++ toString maxIterations ++ " iterations") tr
  else .completed none tr

/-- The `while not is_final_call and iteration_count < max_iterations`
loop of `_agent_loop` (orchestrator.py lines 287-400).  The `fuel`
argument only makes the recursion structural; `agent_loop` starts it at
`maxIterations`, so it cannot run out before the guard
`iterations < maxIterations` fails (the fuel-exhausted branch is
unreachable from `agent_loop`). -/
def loop_run (env : LoopEnv) (rctx : ReceiptCtx) (dup : Option PyJson)
    (sysPrompt originImg : String) (maxIterations : Nat) :
    Nat → Bool → LoopTrace → LoopOutcome
  | fuel, isFinal, tr =>
    if isFinal = true ∨ maxIterations ≤ tr.iterations then post_loop maxIterations tr
    else
      match fuel with
      | 0 => post_loop maxIterations tr
      | fuel + 1 =>
        let messages := build_messages sysPrompt tr.conversation
        let reply := env.model messages
        let tr1 : LoopTrace := { tr with
          iterations := tr.iterations + 1,
          requests := tr.requests ++ [messages],
          conversation := tr.conversation ++ [⟨"assistant", reply⟩] }
        match parse_response env.jsonLoads reply with
        | .error _ =>
          loop_run env rctx dup sysPrompt originImg maxIterations fuel false
            { tr1 with conversation := tr1.conversation ++ [⟨"user", response_error_message⟩] }
        | .reasoning _ =>
          loop_run env rctx dup sysPrompt originImg maxIterations fuel false
            { tr1 with conversation := tr1.conversation ++ [⟨"user", validation_result_message⟩] }
        | .toolCall toolName params finalFlag _ =>
          if toolName ∈ available_tools then
            match params with
            | .obj kvs =>
              let toolParams := pySetItem kvs "final_tool_call" (.bool finalFlag)
              let result := execute_tool env (.str rctx.fileId) (.str rctx.employeeId)
                maxIterations toolName toolParams originImg dup
              let tr2 : LoopTrace := { tr1 with
                conversation := tr1.conversation
                  ++ [⟨"user", tool_result_message toolName (env.jsonDumps result)⟩],
                calls := tr1.calls ++ [(toolName, toolParams)] }
              if toolName = "send_email" ∨ finalFlag = true then
                .completed (some ("Process completed with final tool: " ++ toolName)) tr2
              else
                loop_run env rctx dup sysPrompt originImg maxIterations fuel false tr2
            | _ =>
              .raised "TypeError: tool_params does not support item assignment" tr1
          else
            loop_run env rctx dup sysPrompt originImg maxIterations fuel finalFlag
              { tr1 with conversation := tr1.conversation ++ [⟨"user", tool_error_message toolName⟩] }

/-- Model of `Orchestrator._agent_loop` (orchestrator.py lines 232-400,
default `max_iterations=10`): generate the system prompt once, seed the
conversation when it is empty, then run the loop.  The `update_stage`
observability side channel is a no-op here (spec §6 requires the core to
function correctly if it is). -/
def agent_loop (env : LoopEnv) (rctx : ReceiptCtx) (originImg : String)
    (dup : Option PyJson) (maxIterations : Nat) (conversation : List Msg) : LoopOutcome :=
  let sysPrompt := generate_system_prompt rctx dup
  let conv := if conversation.isEmpty then
      [⟨"user", initial_user_prompt rctx.receiptType rctx.employeeId (pyTruthyOpt dup)⟩]
    else conversation
  loop_run env rctx dup sysPrompt originImg maxIterations maxIterations false ⟨conv, [], [], 0⟩

/-- Stored record of one employee (`employee_data` JSON in Redis): the
`current_expenses` mapping the code updates, plus the remaining fields,
carried unchanged. -/
structure Employee where
  currentExpenses : List (String × Int)
  rest : List (String × PyJson)

/-- The `valid_types` list of `update_expense_budget` (agents.py line 276). -/
def valid_types : List String := ["FOOD_EXPENSE", "TRAVEL_EXPENSE", "TECH_EXPENSE"]

/-- Python `int(float(amount))` on an (exactly represented) numeric
amount: truncation toward zero. -/
def pyTruncQ (q : ℚ) : ℤ := Int.tdiv q.num (q.den : ℤ)

/-- Model of `AgentsWorker.update_expense_budget` (agents.py lines
256-323).  The employee store models the `employee:{id}` keys in Redis;
the function returns the success flag and the updated store. -/
def update_expense_budget (store : List (String × Employee))
    (employeeId expenseType : String) (amount : ℚ) (increment : Bool) :
    Bool × List (String × Employee) :=
  match store.lookup employeeId with
  | none => (false, store)
  | some emp =>
    if expenseType ∈ valid_types then
      let currentAmount := (emp.currentExpenses.lookup expenseType).getD 0
      let newAmount :=
        if increment then currentAmount + pyTruncQ amount
        else max 0 (currentAmount - pyTruncQ amount)
      let emp' : Employee :=
        { emp with currentExpenses := pySetItem emp.currentExpenses expenseType newAmount }
      (true, pySetItem store employeeId emp')
    else (false, store)

/-- Concrete stand-in for `json.loads` on the JSON texts used in the
concrete scenarios below (Python parses all of them successfully; note
that `[1]`, `[1, 2]` and `"x"` are valid JSON but not objects). -/
def jlW : String → Option PyJson := fun s =>
  if s = "\x7b\"email_id\": \"a@b.c\"\x7d" then some (.obj [("email_id", .str "a@b.c")])
  else if s = "[1]" then some (.arr [.int 1])
  else if s = "[1, 2]" then some (.arr [.int 1, .int 2])
  else if s = "\"x\"" then some (.str "x")
  else none

/-- Receipt context used by the concrete scenarios. -/
def rctxW : ReceiptCtx := ⟨"FOOD", "receipt content", "rule text", "E1", "F1"⟩

/-- Loop state used by the concrete scenarios: one seeded user turn,
nothing dispatched yet. -/
def trW : LoopTrace := ⟨[⟨"user", "hi"⟩], [], [], 0⟩

/-- Scenario: the model replies with a well-formed `send_email` call
whose final-call flag says `false`. -/
def env_send_email_ok : LoopEnv :=
  { jsonLoads := jlW, jsonDumps := fun _ => "null",
    model := fun _ =>
      "<tool>send_email</tool><parameters>\x7b\"email_id\": \"a@b.c\"\x7d</parameters><final_tool_call>false</final_tool_call>",
    impl := fun _ _ => .ok (.bool true) }

/-- Scenario: the model replies with a `send_email` call whose
parameters block is the JSON array `[1]` (valid JSON, not an object). -/
def env_send_email_array : LoopEnv :=
  { jsonLoads := jlW, jsonDumps := fun _ => "null",
    model := fun _ => "<tool>send_email</tool><parameters>[1]</parameters>",
    impl := fun _ _ => .ok .null }

/-- Scenario: the model names an unregistered tool and sets the
final-call flag to `true`. -/
def env_unknown_final : LoopEnv :=
  { jsonLoads := jlW, jsonDumps := fun _ => "null",
    model := fun _ => "<tool>bogus_tool</tool><final_tool_call>true</final_tool_call>",
    impl := fun _ _ => .ok .null }

/-- Scenario: the model only replies with a reasoning block. -/
def env_reasoning_only : LoopEnv :=
  { jsonLoads := jlW, jsonDumps := fun _ => "null",
    model := fun _ => "<reasoning>check ok</reasoning>",
    impl := fun _ _ => .ok .null }

/-- Scenario: the model calls a registered tool with a JSON-string
parameters block, never setting the final flag. -/
def env_params_string : LoopEnv :=
  { jsonLoads := jlW, jsonDumps := fun _ => "null",
    model := fun _ => "<tool>get_employee_data</tool><parameters>\"x\"</parameters>",
    impl := fun _ _ => .ok .null }

/-- Scenario: the model calls a registered tool with a JSON-array
parameters block. -/
def env_params_array : LoopEnv :=
  { jsonLoads := jlW, jsonDumps := fun _ => "null",
    model := fun _ => "<tool>get_employee_data</tool><parameters>[1, 2]</parameters>",
    impl := fun _ _ => .ok .null }

theorem post_loop_trOf (m : Nat) (tr : LoopTrace) : (post_loop m tr).trOf = tr := by
  unfold post_loop
  split <;> rfl

theorem parseCore_toolCall (jl : String → Option PyJson) (s : List Char)
    (nm : String) (ps : PyJson) (fl : Bool) (rs : String)
    (hp : parseCore jl s = .toolCall nm ps fl rs) :
    parse_tool_call jl s = .toolCall nm ps fl rs := by
  unfold parseCore at hp
  split at hp
  · split at hp
    · exact absurd hp (by simp)
    · exact hp
  · exact hp

theorem parse_tool_call_shape (jl : String → Option PyJson) (s : List Char)
    (nm : String) (ps : PyJson) (fl : Bool) (rs : String)
    (hp : parse_tool_call jl s = .toolCall nm ps fl rs) :
    ∃ c, searchTagBlock "tool" s = some c ∧ nm = (pyStrip c).asString ∧
      fl = (if nm = "send_email" then true else final_flag_of s) := by
  unfold parse_tool_call at hp
  split at hp
  · exact absurd hp (by simp)
  case _ c heq =>
    split at hp
    · split at hp
      · exact absurd hp (by simp)
      · obtain ⟨h1, h2, h3, h4⟩ := ParsedResponse.toolCall.inj hp
        exact ⟨c, heq, h1.symm, by rw [← h3, h1]⟩
    · obtain ⟨h1, h2, h3, h4⟩ := ParsedResponse.toolCall.inj hp
      exact ⟨c, heq, h1.symm, by rw [← h3, h1]⟩

theorem parse_response_send_email_final (jl : String → Option PyJson) (r : String)
    (ps : PyJson) (fl : Bool) (rs : String)
    (hp : parse_response jl r = .toolCall "send_email" ps fl rs) : fl = true := by
  obtain ⟨c, _, h2, h3⟩ := parse_tool_call_shape jl _ _ _ _ _
    (parseCore_toolCall jl _ _ _ _ _ hp)
  rw [if_pos rfl] at h3
  exact h3

theorem lookup_map_replace {β : Type} (d : List (String × β)) (k : String) (v : β)
    (h : d.any (fun kv => kv.1 = k) = true) :
    (d.map (fun kv => if kv.1 = k then (k, v) else kv)).lookup k = some v := by
  induction d with
  | nil => simp at h
  | cons hd tl ih =>
    obtain ⟨k1, v1⟩ := hd
    by_cases hk : k1 = k
    · simp [List.lookup_cons, hk]
    · have hk' : ¬ (k = k1) := fun hh => hk hh.symm
      have h' : tl.any (fun kv => kv.1 = k) = true := by
        simpa [hk] using h
      have hbeq : (k == k1) = false := by
        simp [hk']
      simp [List.lookup_cons, hk, hbeq, ih h']

theorem lookup_append_single {β : Type} (d : List (String × β)) (k : String) (v : β)
    (h : d.any (fun kv => kv.1 = k) = false) :
    (d ++ [(k, v)]).lookup k = some v := by
  induction d with
  | nil => simp [List.lookup_cons]
  | cons hd tl ih =>
    obtain ⟨k1, v1⟩ := hd
    have hk : ¬ (k1 = k) := by
      intro hh
      simp [hh] at h
    have hk' : ¬ (k = k1) := fun hh => hk hh.symm
    have h' : tl.any (fun kv => kv.1 = k) = false := by
      have hall := List.any_eq_false.mp h
      exact List.any_eq_false.mpr (fun x hx => hall x (List.mem_cons_of_mem _ hx))
    have hbeq : (k == k1) = false := by
      simp [hk']
    simp [List.lookup_cons, hbeq, ih h']

theorem lookup_pySetItem {β : Type} (d : List (String × β)) (k : String) (v : β) :
    (pySetItem d k v).lookup k = some v := by
  unfold pySetItem
  split
  · exact lookup_map_replace d k v (by assumption)
  · exact lookup_append_single d k v (by rename_i h; exact Bool.eq_false_iff.mpr h)

/-- Claim C8: for every tool name and parameter map, `_execute_tool` returns a
plain result value and never lets an exception escape: an unknown name
yields a not-found error payload, a raising tool yields an
`{"error": ...}` payload, and a succeeding tool yields its value. -/
theorem C8_execute_tool_total (env : LoopEnv) (fid eid : PyJson) (mi : Nat)
    (nm : String) (params : List (String × PyJson)) (img : String) (dup : Option PyJson) :
    (nm ∉ available_tools →
      execute_tool env fid eid mi nm params img dup =
        .obj [("error", .str ("Tool " ++ nm ++ " not found"))])
    ∧ (∀ e, nm ∈ available_tools →
        env.impl nm (mergeExecParams params fid eid mi img dup) = .error e →
        execute_tool env fid eid mi nm params img dup =
          .obj [("error", .str ("Error executing tool " ++ nm ++ ": " ++ e))])
    ∧ (∀ v, nm ∈ available_tools →
        env.impl nm (mergeExecParams params fid eid mi img dup) = .ok v →
        execute_tool env fid eid mi nm params img dup = v) := by
  refine ⟨?_, ?_, ?_⟩
  · intro hn
    unfold execute_tool
    rw [if_neg hn]
  · intro e ht he
    unfold execute_tool
    rw [if_pos ht, he]
  · intro v ht hv
    unfold execute_tool
    rw [if_pos ht, hv]

/-- Witness for C8 at a concrete input: a registered tool that raises is
converted into an error payload. -/
theorem C8_execute_tool_total_witness :
    execute_tool
      { jsonLoads := fun _ => none, jsonDumps := fun _ => "null",
        model := fun _ => "", impl := fun _ _ => .error "boom" }
      (.str "F1") (.str "E1") 10 "send_email" [("email_id", .str "a@b.c")] "" none =
      .obj [("error", .str ("Error executing tool " ++ "send_email" ++ ": " ++ "boom"))] :=
  (C8_execute_tool_total _ (.str "F1") (.str "E1") 10 "send_email"
      [("email_id", .str "a@b.c")] "" none).2.1 "boom" (by decide) rfl

/-- Claim C10: decrementing an existing employee's expense of a valid type
stores `max 0 (old - int(float(amount)))`: the amount is truncated and
the result clamped at zero, so the stored value cannot go negative. -/
theorem C10_decrement_clamped (store : List (String × Employee))
    (eid etype : String) (amount : ℚ) (emp : Employee)
    (h1 : store.lookup eid = some emp) (h2 : etype ∈ valid_types) :
    (update_expense_budget store eid etype amount false).1 = true ∧
    ∃ emp', (update_expense_budget store eid etype amount false).2.lookup eid = some emp' ∧
      emp'.currentExpenses.lookup etype =
        some (max 0 ((emp.currentExpenses.lookup etype).getD 0 - pyTruncQ amount)) ∧
      0 ≤ max 0 ((emp.currentExpenses.lookup etype).getD 0 - pyTruncQ amount) := by
  unfold update_expense_budget
  simp only [h1]
  rw [if_pos h2]
  exact ⟨rfl, ⟨_, lookup_pySetItem _ _ _, lookup_pySetItem _ _ _, le_max_left _ _⟩⟩

/-- Witness for C10 at a concrete input: employee `E1` with
`FOOD_EXPENSE = 30`, decrement by `50.7`: truncated to `50`, clamped to
`0`. -/
theorem C10_decrement_clamped_witness :
    (update_expense_budget [("E1", ⟨[("FOOD_EXPENSE", 30)], []⟩)] "E1" "FOOD_EXPENSE"
      (507/10 : ℚ) false).1 = true ∧
    ∃ emp', (update_expense_budget [("E1", ⟨[("FOOD_EXPENSE", 30)], []⟩)] "E1" "FOOD_EXPENSE"
        (507/10 : ℚ) false).2.lookup "E1" = some emp' ∧
      emp'.currentExpenses.lookup "FOOD_EXPENSE" =
        some (max 0 ((([("FOOD_EXPENSE", (30:Int))].lookup "FOOD_EXPENSE").getD 0)
          - pyTruncQ (507/10 : ℚ))) ∧
      0 ≤ max 0 ((([("FOOD_EXPENSE", (30:Int))].lookup "FOOD_EXPENSE").getD 0)
          - pyTruncQ (507/10 : ℚ)) :=
  C10_decrement_clamped [("E1", ⟨[("FOOD_EXPENSE", 30)], []⟩)] "E1" "FOOD_EXPENSE"
    (507/10 : ℚ) ⟨[("FOOD_EXPENSE", 30)], []⟩ rfl (by decide)

theorem loop_run_isFinal (env : LoopEnv) (rctx : ReceiptCtx) (dup : Option PyJson)
    (sys img : String) (maxIter fuel : Nat) (tr : LoopTrace) :
    loop_run env rctx dup sys img maxIter fuel true tr = post_loop maxIter tr := by
  rw [loop_run.eq_def]
  dsimp only
  rw [if_pos (Or.inl rfl)]

theorem loop_run_ceiling (env : LoopEnv) (rctx : ReceiptCtx) (dup : Option PyJson)
    (sys img : String) (maxIter fuel : Nat) (tr : LoopTrace) (h : maxIter ≤ tr.iterations) :
    loop_run env rctx dup sys img maxIter fuel false tr = post_loop maxIter tr := by
  rw [loop_run.eq_def]
  dsimp only
  rw [if_pos (Or.inr h)]

theorem loop_run_step_error (env : LoopEnv) (rctx : ReceiptCtx) (dup : Option PyJson)
    (sys img : String) (maxIter fuel : Nat) (tr : LoopTrace) (m : String)
    (h : tr.iterations < maxIter)
    (hp : parse_response env.jsonLoads (env.model (build_messages sys tr.conversation)) = .error m) :
    loop_run env rctx dup sys img maxIter (fuel + 1) false tr =
      loop_run env rctx dup sys img maxIter fuel false
        { conversation := tr.conversation
            ++ [⟨"assistant", env.model (build_messages sys tr.conversation)⟩,
                ⟨"user", response_error_message⟩],
          calls := tr.calls,
          requests := tr.requests ++ [build_messages sys tr.conversation],
          iterations := tr.iterations + 1 } := by
  rw [loop_run]
  rw [if_neg (by simp [Nat.not_le.mpr h])]
  simp only [hp, List.append_assoc, List.cons_append, List.nil_append]

theorem loop_run_step_reasoning (env : LoopEnv) (rctx : ReceiptCtx) (dup : Option PyJson)
    (sys img : String) (maxIter fuel : Nat) (tr : LoopTrace) (x : String)
    (h : tr.iterations < maxIter)
    (hp : parse_response env.jsonLoads (env.model (build_messages sys tr.conversation)) = .reasoning x) :
    loop_run env rctx dup sys img maxIter (fuel + 1) false tr =
      loop_run env rctx dup sys img maxIter fuel false
        { conversation := tr.conversation
            ++ [⟨"assistant", env.model (build_messages sys tr.conversation)⟩,
                ⟨"user", validation_result_message⟩],
          calls := tr.calls,
          requests := tr.requests ++ [build_messages sys tr.conversation],
          iterations := tr.iterations + 1 } := by
  rw [loop_run]
  rw [if_neg (by simp [Nat.not_le.mpr h])]
  simp only [hp, List.append_assoc, List.cons_append, List.nil_append]

theorem loop_run_step_unknown (env : LoopEnv) (rctx : ReceiptCtx) (dup : Option PyJson)
    (sys img : String) (maxIter fuel : Nat) (tr : LoopTrace)
    (nm : String) (ps : PyJson) (fl : Bool) (rs : String)
    (h : tr.iterations < maxIter)
    (hp : parse_response env.jsonLoads (env.model (build_messages sys tr.conversation)) = .toolCall nm ps fl rs)
    (hn : nm ∉ available_tools) :
    loop_run env rctx dup sys img maxIter (fuel + 1) false tr =
      loop_run env rctx dup sys img maxIter fuel fl
        { conversation := tr.conversation
            ++ [⟨"assistant", env.model (build_messages sys tr.conversation)⟩,
                ⟨"user", tool_error_message nm⟩],
          calls := tr.calls,
          requests := tr.requests ++ [build_messages sys tr.conversation],
          iterations := tr.iterations + 1 } := by
  rw [loop_run]
  rw [if_neg (by simp [Nat.not_le.mpr h])]
  simp only [hp, List.append_assoc, List.cons_append, List.nil_append]
  rw [if_neg hn]

theorem loop_run_step_dispatch (env : LoopEnv) (rctx : ReceiptCtx) (dup : Option PyJson)
    (sys img : String) (maxIter fuel : Nat) (tr : LoopTrace)
    (nm : String) (kvs : List (String × PyJson)) (fl : Bool) (rs : String)
    (h : tr.iterations < maxIter)
    (hp : parse_response env.jsonLoads (env.model (build_messages sys tr.conversation)) = .toolCall nm (.obj kvs) fl rs)
    (ht : nm ∈ available_tools) :
    loop_run env rctx dup sys img maxIter (fuel + 1) false tr =
      (if nm = "send_email" ∨ fl = true then
        LoopOutcome.completed (some ("Process completed with final tool: " ++ nm))
          { conversation := tr.conversation
              ++ [⟨"assistant", env.model (build_messages sys tr.conversation)⟩,
                  ⟨"user", tool_result_message nm (env.jsonDumps (execute_tool env
                    (.str rctx.fileId) (.str rctx.employeeId) maxIter nm
                    (pySetItem kvs "final_tool_call" (.bool fl)) img dup))⟩],
            calls := tr.calls ++ [(nm, pySetItem kvs "final_tool_call" (.bool fl))],
            requests := tr.requests ++ [build_messages sys tr.conversation],
            iterations := tr.iterations + 1 }
      else
        loop_run env rctx dup sys img maxIter fuel false
          { conversation := tr.conversation
              ++ [⟨"assistant", env.model (build_messages sys tr.conversation)⟩,
                  ⟨"user", tool_result_message nm (env.jsonDumps (execute_tool env
                    (.str rctx.fileId) (.str rctx.employeeId) maxIter nm
                    (pySetItem kvs "final_tool_call" (.bool fl)) img dup))⟩],
            calls := tr.calls ++ [(nm, pySetItem kvs "final_tool_call" (.bool fl))],
            requests := tr.requests ++ [build_messages sys tr.conversation],
            iterations := tr.iterations + 1 }) := by
  rw [loop_run]
  rw [if_neg (by simp [Nat.not_le.mpr h])]
  simp only [hp, List.append_assoc, List.cons_append, List.nil_append]
  rw [if_pos ht]

theorem loop_run_step_nonobj (env : LoopEnv) (rctx : ReceiptCtx) (dup : Option PyJson)
    (sys img : String) (maxIter fuel : Nat) (tr : LoopTrace)
    (nm : String) (ps : PyJson) (fl : Bool) (rs : String)
    (h : tr.iterations < maxIter)
    (hp : parse_response env.jsonLoads (env.model (build_messages sys tr.conversation)) = .toolCall nm ps fl rs)
    (ht : nm ∈ available_tools)
    (hno : ∀ kvs, ps ≠ .obj kvs) :
    loop_run env rctx dup sys img maxIter (fuel + 1) false tr =
      .raised "TypeError: tool_params does not support item assignment"
        { conversation := tr.conversation
            ++ [⟨"assistant", env.model (build_messages sys tr.conversation)⟩],
          calls := tr.calls,
          requests := tr.requests ++ [build_messages sys tr.conversation],
          iterations := tr.iterations + 1 } := by
  rw [loop_run]
  rw [if_neg (by simp [Nat.not_le.mpr h])]
  simp only [hp, List.append_assoc, List.cons_append, List.nil_append]
  rw [if_pos ht]

theorem containsSub_eq_false (pat s : List Char) (h : containsSub pat s = false) :
    occursFrom pat s 0 = none := by
  unfold containsSub at h
  cases ho : occursFrom pat s 0 with
  | none => rfl
  | some i => rw [ho] at h; simp at h

theorem searchTagBlock_opener (tag : String) (s : List Char) (c : List Char)
    (h : searchTagBlock tag s = some c) : containsSub (tagOpen tag) s = true := by
  unfold searchTagBlock at h
  cases ho : occursFrom (tagOpen tag) s 0 with
  | none => rw [ho] at h; exact absurd h (by simp)
  | some i => unfold containsSub; rw [ho]; rfl

theorem truncate_no_tool (s : List Char) (h : containsSub (tagOpen "tool") s = false) :
    truncateMultiBlocks s = s := by
  have ho := containsSub_eq_false _ _ h
  have hm : multipleToolBlocks s = false := by
    unfold multipleToolBlocks matchToolBlockFrom
    rw [ho]
  unfold truncateMultiBlocks
  rw [hm]
  simp

/-- Claim C5: a reply with no `<tool>` occurrence but a complete `reasoning`
block parses to `Reasoning` with the trimmed block text, and the loop
appends the validation-acknowledged user turn and continues without
dispatching any tool. -/
theorem C5_reasoning_only_step (env : LoopEnv) (rctx : ReceiptCtx) (dup : Option PyJson)
    (sys img : String) (maxIter fuel : Nat) (tr : LoopTrace) (c : List Char)
    (h : tr.iterations < maxIter)
    (hto : containsSub (tagOpen "tool") (env.model (build_messages sys tr.conversation)).toList = false)
    (hre : searchTagBlock "reasoning" (env.model (build_messages sys tr.conversation)).toList = some c) :
    parse_response env.jsonLoads (env.model (build_messages sys tr.conversation)) =
      .reasoning (pyStrip c).asString ∧
    loop_run env rctx dup sys img maxIter (fuel + 1) false tr =
      loop_run env rctx dup sys img maxIter fuel false
        { conversation := tr.conversation
            ++ [⟨"assistant", env.model (build_messages sys tr.conversation)⟩,
                ⟨"user", validation_result_message⟩],
          calls := tr.calls,
          requests := tr.requests ++ [build_messages sys tr.conversation],
          iterations := tr.iterations + 1 } := by
  have hparse : parse_response env.jsonLoads (env.model (build_messages sys tr.conversation)) =
      .reasoning (pyStrip c).asString := by
    unfold parse_response
    rw [truncate_no_tool _ hto]
    unfold parseCore
    rw [if_pos (show
        (¬ containsSub (tagOpen "tool")
          (env.model (build_messages sys tr.conversation)).toList = true)
        ∧ containsSub (tagOpen "reasoning")
          (env.model (build_messages sys tr.conversation)).toList = true from
      ⟨fun hh => Bool.noConfusion (hto.symm.trans hh), searchTagBlock_opener _ _ _ hre⟩)]
    rw [hre]
  exact ⟨hparse, loop_run_step_reasoning env rctx dup sys img maxIter fuel tr _ h hparse⟩

/-- Claim C1 (amended): a reply parsed as a `send_email` tool call whose
parameters are a JSON object makes the loop dispatch the email and
return `status=completed` with the send_email final-tool message,
whatever the final-call flag said. -/
theorem C1_send_email_terminates (env : LoopEnv) (rctx : ReceiptCtx) (dup : Option PyJson)
    (sys img : String) (maxIter fuel : Nat) (tr : LoopTrace)
    (kvs : List (String × PyJson)) (fl : Bool) (rs : String)
    (h : tr.iterations < maxIter)
    (hp : parse_response env.jsonLoads (env.model (build_messages sys tr.conversation)) =
      .toolCall "send_email" (.obj kvs) fl rs) :
    ∃ tr', loop_run env rctx dup sys img maxIter (fuel + 1) false tr =
        .completed (some ("Process completed with final tool: " ++ "send_email")) tr' ∧
      tr'.calls = tr.calls ++ [("send_email", pySetItem kvs "final_tool_call" (.bool fl))] ∧
      tr'.iterations = tr.iterations + 1 := by
  rw [loop_run_step_dispatch env rctx dup sys img maxIter fuel tr _ kvs fl rs h hp (by decide)]
  rw [if_pos (Or.inl rfl)]
  exact ⟨_, rfl, rfl, rfl⟩

/-- Witness for C1 at a concrete input: a `send_email` reply whose flag
block says `false` still terminates the loop as completed. -/
theorem C1_send_email_terminates_witness :
    ∃ tr', loop_run env_send_email_ok rctxW none "SYS" "" 10 (9 + 1) false trW =
        .completed (some ("Process completed with final tool: " ++ "send_email")) tr' ∧
      tr'.calls = trW.calls ++ [("send_email",
        pySetItem [("email_id", PyJson.str "a@b.c")] "final_tool_call" (.bool true))] ∧
      tr'.iterations = trW.iterations + 1 :=
  C1_send_email_terminates env_send_email_ok rctxW none "SYS" "" 10 9 trW
    [("email_id", PyJson.str "a@b.c")] true "" (by decide) rfl

/-- Counterexample for C1 as stated: a reply whose parsed tool name is
`send_email` but whose parameters block is the JSON array `[1]` makes
the loop raise an uncaught `TypeError` at
`tool_params["final_tool_call"] = is_final_call`; no email is dispatched
and no `completed` status is returned. -/
theorem C1_counterexample :
    (∃ fl rs, parse_response jlW "<tool>send_email</tool><parameters>[1]</parameters>" =
      .toolCall "send_email" (.arr [.int 1]) fl rs) ∧
    (agent_loop env_send_email_array rctxW "" none 10 []).statusOf = "raised" ∧
    (agent_loop env_send_email_array rctxW "" none 10 []).trOf.calls = [] :=
  ⟨⟨true, "", rfl⟩, rfl, rfl⟩

/-- Claim C2 (amended): an unknown-tool reply appends the user turn listing
the registry and the invalid name and dispatches nothing, but the loop
variable `is_final_call` keeps the reply's flag, so when the flag is
`true` (and the ceiling is not reached) the loop exits with the bare
`status=completed` return instead of continuing. -/
theorem C2_unknown_tool_no_dispatch (env : LoopEnv) (rctx : ReceiptCtx) (dup : Option PyJson)
    (sys img : String) (maxIter fuel : Nat) (tr : LoopTrace)
    (nm : String) (ps : PyJson) (fl : Bool) (rs : String)
    (h : tr.iterations < maxIter)
    (hp : parse_response env.jsonLoads (env.model (build_messages sys tr.conversation)) =
      .toolCall nm ps fl rs)
    (hn : nm ∉ available_tools) :
    (loop_run env rctx dup sys img maxIter (fuel + 1) false tr =
      loop_run env rctx dup sys img maxIter fuel fl
        { conversation := tr.conversation
            ++ [⟨"assistant", env.model (build_messages sys tr.conversation)⟩,
                ⟨"user", tool_error_message nm⟩],
          calls := tr.calls,
          requests := tr.requests ++ [build_messages sys tr.conversation],
          iterations := tr.iterations + 1 })
    ∧ (fl = true → tr.iterations + 1 < maxIter →
      loop_run env rctx dup sys img maxIter (fuel + 1) false tr =
        .completed none
          { conversation := tr.conversation
              ++ [⟨"assistant", env.model (build_messages sys tr.conversation)⟩,
                  ⟨"user", tool_error_message nm⟩],
            calls := tr.calls,
            requests := tr.requests ++ [build_messages sys tr.conversation],
            iterations := tr.iterations + 1 }) := by
  have hstep := loop_run_step_unknown env rctx dup sys img maxIter fuel tr nm ps fl rs h hp hn
  refine ⟨hstep, fun hf hlt => ?_⟩
  rw [hstep]
  subst hf
  rw [loop_run_isFinal]
  unfold post_loop
  rw [if_neg (Nat.not_le.mpr hlt)]

/-- Witness for C2 at a concrete input: unknown tool `bogus_tool` with
final flag `true`, one iteration in, ceiling 10. -/
theorem C2_unknown_tool_no_dispatch_witness :
    (loop_run env_unknown_final rctxW none "SYS" "" 10 (9 + 1) false trW =
      loop_run env_unknown_final rctxW none "SYS" "" 10 9 true
        { conversation := trW.conversation
            ++ [⟨"assistant", env_unknown_final.model (build_messages "SYS" trW.conversation)⟩,
                ⟨"user", tool_error_message "bogus_tool"⟩],
          calls := trW.calls,
          requests := trW.requests ++ [build_messages "SYS" trW.conversation],
          iterations := trW.iterations + 1 })
    ∧ (true = true → trW.iterations + 1 < 10 →
      loop_run env_unknown_final rctxW none "SYS" "" 10 (9 + 1) false trW =
        .completed none
          { conversation := trW.conversation
              ++ [⟨"assistant", env_unknown_final.model (build_messages "SYS" trW.conversation)⟩,
                  ⟨"user", tool_error_message "bogus_tool"⟩],
            calls := trW.calls,
            requests := trW.requests ++ [build_messages "SYS" trW.conversation],
            iterations := trW.iterations + 1 }) :=
  C2_unknown_tool_no_dispatch env_unknown_final rctxW none "SYS" "" 10 9 trW
    "bogus_tool" (.obj []) true "" (by decide) rfl (by decide)

/-- Counterexample for C2 as stated: with a model that always names the
unknown tool `bogus_tool` and flag `true`, the whole run exits after one
iteration with the bare completed return — it does not continue looping,
so the unknown-tool reply did consume the final opportunity. -/
theorem C2_counterexample :
    (agent_loop env_unknown_final rctxW "" none 10 []).statusOf = "completed" ∧
    (agent_loop env_unknown_final rctxW "" none 10 []).messageOf = none ∧
    (agent_loop env_unknown_final rctxW "" none 10 []).trOf.iterations = 1 ∧
    (agent_loop env_unknown_final rctxW "" none 10 []).trOf.calls = [] :=
  ⟨rfl, rfl, rfl, rfl⟩

/-- Witness for C5 at the spec's own scenario:
`<reasoning>check ok</reasoning>` with no tool block. -/
theorem C5_reasoning_only_step_witness :
    parse_response env_reasoning_only.jsonLoads
      (env_reasoning_only.model (build_messages "SYS" trW.conversation)) =
      .reasoning (pyStrip "check ok".toList).asString ∧
    loop_run env_reasoning_only rctxW none "SYS" "" 10 (9 + 1) false trW =
      loop_run env_reasoning_only rctxW none "SYS" "" 10 9 false
        { conversation := trW.conversation
            ++ [⟨"assistant", env_reasoning_only.model (build_messages "SYS" trW.conversation)⟩,
                ⟨"user", validation_result_message⟩],
          calls := trW.calls,
          requests := trW.requests ++ [build_messages "SYS" trW.conversation],
          iterations := trW.iterations + 1 } :=
  C5_reasoning_only_step env_reasoning_only rctxW none "SYS" "" 10 9 trW
    "check ok".toList (by decide) rfl rfl

theorem loop_run_conversation_extends (env : LoopEnv) (rctx : ReceiptCtx) (dup : Option PyJson)
    (sys img : String) (maxIter : Nat) :
    ∀ (fuel : Nat) (isFinal : Bool) (tr : LoopTrace), ∃ rest,
      ((loop_run env rctx dup sys img maxIter fuel isFinal tr).trOf).conversation =
        tr.conversation ++ rest := by
  intro fuel
  induction fuel with
  | zero =>
    intro isFinal tr
    rw [loop_run.eq_def]
    dsimp only
    split
    · exact ⟨[], by rw [post_loop_trOf, List.append_nil]⟩
    · exact ⟨[], by rw [post_loop_trOf, List.append_nil]⟩
  | succ fuel ih =>
    intro isFinal tr
    cases isFinal with
    | true =>
      rw [loop_run_isFinal]
      exact ⟨[], by rw [post_loop_trOf, List.append_nil]⟩
    | false =>
      by_cases hceil : maxIter ≤ tr.iterations
      · rw [loop_run_ceiling _ _ _ _ _ _ _ _ hceil]
        exact ⟨[], by rw [post_loop_trOf, List.append_nil]⟩
      · have h : tr.iterations < maxIter := Nat.not_le.mp hceil
        cases hp : parse_response env.jsonLoads (env.model (build_messages sys tr.conversation)) with
        | error m =>
          rw [loop_run_step_error _ _ _ _ _ _ _ _ _ h hp]
          obtain ⟨r, hr⟩ := ih false
            { conversation := tr.conversation
                ++ [⟨"assistant", env.model (build_messages sys tr.conversation)⟩,
                    ⟨"user", response_error_message⟩],
              calls := tr.calls,
              requests := tr.requests ++ [build_messages sys tr.conversation],
              iterations := tr.iterations + 1 }
          exact ⟨[⟨"assistant", env.model (build_messages sys tr.conversation)⟩,
              ⟨"user", response_error_message⟩] ++ r,
            by simp only [hr, List.append_assoc]⟩
        | reasoning x =>
          rw [loop_run_step_reasoning _ _ _ _ _ _ _ _ _ h hp]
          obtain ⟨r, hr⟩ := ih false
            { conversation := tr.conversation
                ++ [⟨"assistant", env.model (build_messages sys tr.conversation)⟩,
                    ⟨"user", validation_result_message⟩],
              calls := tr.calls,
              requests := tr.requests ++ [build_messages sys tr.conversation],
              iterations := tr.iterations + 1 }
          exact ⟨[⟨"assistant", env.model (build_messages sys tr.conversation)⟩,
              ⟨"user", validation_result_message⟩] ++ r,
            by simp only [hr, List.append_assoc]⟩
        | toolCall nm ps fl rs =>
          by_cases ht : nm ∈ available_tools
          · cases ps with
            | obj kvs =>
              rw [loop_run_step_dispatch _ _ _ _ _ _ _ _ _ kvs fl rs h hp ht]
              by_cases hse : nm = "send_email" ∨ fl = true
              · rw [if_pos hse]
                exact ⟨_, rfl⟩
              · rw [if_neg hse]
                obtain ⟨r, hr⟩ := ih false
                  { conversation := tr.conversation
                      ++ [⟨"assistant", env.model (build_messages sys tr.conversation)⟩,
                          ⟨"user", tool_result_message nm (env.jsonDumps (execute_tool env
                            (.str rctx.fileId) (.str rctx.employeeId) maxIter nm
                            (pySetItem kvs "final_tool_call" (.bool fl)) img dup))⟩],
                    calls := tr.calls ++ [(nm, pySetItem kvs "final_tool_call" (.bool fl))],
                    requests := tr.requests ++ [build_messages sys tr.conversation],
                    iterations := tr.iterations + 1 }
                exact ⟨[⟨"assistant", env.model (build_messages sys tr.conversation)⟩,
                    ⟨"user", tool_result_message nm (env.jsonDumps (execute_tool env
                      (.str rctx.fileId) (.str rctx.employeeId) maxIter nm
                      (pySetItem kvs "final_tool_call" (.bool fl)) img dup))⟩] ++ r,
                  by simp only [hr, List.append_assoc]⟩
            | arr l =>
              rw [loop_run_step_nonobj _ _ _ _ _ _ _ _ _ _ _ _ h hp ht
                (fun _ hh => PyJson.noConfusion hh)]
              exact ⟨_, rfl⟩
            | str s =>
              rw [loop_run_step_nonobj _ _ _ _ _ _ _ _ _ _ _ _ h hp ht
                (fun _ hh => PyJson.noConfusion hh)]
              exact ⟨_, rfl⟩
            | int n =>
              rw [loop_run_step_nonobj _ _ _ _ _ _ _ _ _ _ _ _ h hp ht
                (fun _ hh => PyJson.noConfusion hh)]
              exact ⟨_, rfl⟩
            | bool b =>
              rw [loop_run_step_nonobj _ _ _ _ _ _ _ _ _ _ _ _ h hp ht
                (fun _ hh => PyJson.noConfusion hh)]
              exact ⟨_, rfl⟩
            | null =>
              rw [loop_run_step_nonobj _ _ _ _ _ _ _ _ _ _ _ _ h hp ht
                (fun _ hh => PyJson.noConfusion hh)]
              exact ⟨_, rfl⟩
          · rw [loop_run_step_unknown _ _ _ _ _ _ _ _ _ _ _ _ h hp ht]
            obtain ⟨r, hr⟩ := ih fl
              { conversation := tr.conversation
                  ++ [⟨"assistant", env.model (build_messages sys tr.conversation)⟩,
                      ⟨"user", tool_error_message nm⟩],
                calls := tr.calls,
                requests := tr.requests ++ [build_messages sys tr.conversation],
                iterations := tr.iterations + 1 }
            exact ⟨[⟨"assistant", env.model (build_messages sys tr.conversation)⟩,
                ⟨"user", tool_error_message nm⟩] ++ r,
              by simp only [hr, List.append_assoc]⟩

/-- Claim C9: within one loop run the conversation is append-only: whatever
state the loop starts from, the conversation it ends with is the start
conversation followed by newly appended turns, so the turn count is
monotonically non-decreasing. -/
theorem C9_conversation_append_only (env : LoopEnv) (rctx : ReceiptCtx) (dup : Option PyJson)
    (sys img : String) (maxIter fuel : Nat) (isFinal : Bool) (tr : LoopTrace) :
    (∃ rest, ((loop_run env rctx dup sys img maxIter fuel isFinal tr).trOf).conversation =
      tr.conversation ++ rest) ∧
    tr.conversation.length ≤
      ((loop_run env rctx dup sys img maxIter fuel isFinal tr).trOf).conversation.length := by
  obtain ⟨r, hr⟩ := loop_run_conversation_extends env rctx dup sys img maxIter fuel isFinal tr
  refine ⟨⟨r, hr⟩, ?_⟩
  rw [hr, List.length_append]
  omega

theorem loop_run_requests_shape (env : LoopEnv) (rctx : ReceiptCtx) (dup : Option PyJson)
    (sys img : String) (maxIter : Nat) :
    ∀ (fuel : Nat) (isFinal : Bool) (tr : LoopTrace) (r : List Msg),
      r ∈ ((loop_run env rctx dup sys img maxIter fuel isFinal tr).trOf).requests →
      r ∈ tr.requests ∨ ∃ conv', r = build_messages sys conv' ∧
        (∃ r1, conv' = tr.conversation ++ r1) ∧
        (∃ r2, ((loop_run env rctx dup sys img maxIter fuel isFinal tr).trOf).conversation =
          conv' ++ r2) := by
  intro fuel
  induction fuel with
  | zero =>
    intro isFinal tr r hm
    rw [loop_run.eq_def] at hm ⊢
    dsimp only at hm ⊢
    split at hm
    · rw [post_loop_trOf] at hm
      exact Or.inl hm
    · rw [post_loop_trOf] at hm
      exact Or.inl hm
  | succ fuel ih =>
    intro isFinal tr r hm
    cases isFinal with
    | true =>
      rw [loop_run_isFinal] at hm ⊢
      rw [post_loop_trOf] at hm
      exact Or.inl hm
    | false =>
      by_cases hceil : maxIter ≤ tr.iterations
      · rw [loop_run_ceiling _ _ _ _ _ _ _ _ hceil] at hm ⊢
        rw [post_loop_trOf] at hm
        exact Or.inl hm
      · have h : tr.iterations < maxIter := Nat.not_le.mp hceil
        cases hp : parse_response env.jsonLoads (env.model (build_messages sys tr.conversation)) with
        | error m =>
          rw [loop_run_step_error _ _ _ _ _ _ _ _ _ h hp] at hm ⊢
          rcases ih false
            { conversation := tr.conversation
                ++ [⟨"assistant", env.model (build_messages sys tr.conversation)⟩,
                    ⟨"user", response_error_message⟩],
              calls := tr.calls,
              requests := tr.requests ++ [build_messages sys tr.conversation],
              iterations := tr.iterations + 1 } r hm with hmem | ⟨conv', hc1, ⟨r1, hc2⟩, ⟨r2, hc3⟩⟩
          · rcases List.mem_append.mp hmem with h1 | h2
            · exact Or.inl h1
            · refine Or.inr ⟨tr.conversation, List.mem_singleton.mp h2,
                ⟨[], (List.append_nil _).symm⟩, ?_⟩
              obtain ⟨rr, hrr⟩ := loop_run_conversation_extends env rctx dup sys img maxIter fuel false
                { conversation := tr.conversation
                    ++ [⟨"assistant", env.model (build_messages sys tr.conversation)⟩,
                        ⟨"user", response_error_message⟩],
                  calls := tr.calls,
                  requests := tr.requests ++ [build_messages sys tr.conversation],
                  iterations := tr.iterations + 1 }
              exact ⟨[⟨"assistant", env.model (build_messages sys tr.conversation)⟩,
                  ⟨"user", response_error_message⟩] ++ rr,
                by simp only [hrr, List.append_assoc]⟩
          · exact Or.inr ⟨conv', hc1,
              ⟨[⟨"assistant", env.model (build_messages sys tr.conversation)⟩,
                  ⟨"user", response_error_message⟩] ++ r1,
                by simp only [hc2, List.append_assoc]⟩, ⟨r2, hc3⟩⟩
        | reasoning x =>
          rw [loop_run_step_reasoning _ _ _ _ _ _ _ _ _ h hp] at hm ⊢
          rcases ih false
            { conversation := tr.conversation
                ++ [⟨"assistant", env.model (build_messages sys tr.conversation)⟩,
                    ⟨"user", validation_result_message⟩],
              calls := tr.calls,
              requests := tr.requests ++ [build_messages sys tr.conversation],
              iterations := tr.iterations + 1 } r hm with hmem | ⟨conv', hc1, ⟨r1, hc2⟩, ⟨r2, hc3⟩⟩
          · rcases List.mem_append.mp hmem with h1 | h2
            · exact Or.inl h1
            · refine Or.inr ⟨tr.conversation, List.mem_singleton.mp h2,
                ⟨[], (List.append_nil _).symm⟩, ?_⟩
              obtain ⟨rr, hrr⟩ := loop_run_conversation_extends env rctx dup sys img maxIter fuel false
                { conversation := tr.conversation
                    ++ [⟨"assistant", env.model (build_messages sys tr.conversation)⟩,
                        ⟨"user", validation_result_message⟩],
                  calls := tr.calls,
                  requests := tr.requests ++ [build_messages sys tr.conversation],
                  iterations := tr.iterations + 1 }
              exact ⟨[⟨"assistant", env.model (build_messages sys tr.conversation)⟩,
                  ⟨"user", validation_result_message⟩] ++ rr,
                by simp only [hrr, List.append_assoc]⟩
          · exact Or.inr ⟨conv', hc1,
              ⟨[⟨"assistant", env.model (build_messages sys tr.conversation)⟩,
                  ⟨"user", validation_result_message⟩] ++ r1,
                by simp only [hc2, List.append_assoc]⟩, ⟨r2, hc3⟩⟩
        | toolCall nm ps fl rs =>
          by_cases ht : nm ∈ available_tools
          · cases ps with
            | obj kvs =>
              rw [loop_run_step_dispatch _ _ _ _ _ _ _ _ _ kvs fl rs h hp ht] at hm ⊢
              by_cases hse : nm = "send_email" ∨ fl = true
              · rw [if_pos hse] at hm ⊢
                rcases List.mem_append.mp hm with h1 | h2
                · exact Or.inl h1
                · exact Or.inr ⟨tr.conversation, List.mem_singleton.mp h2,
                    ⟨[], (List.append_nil _).symm⟩,
                    ⟨[⟨"assistant", env.model (build_messages sys tr.conversation)⟩,
                        ⟨"user", tool_result_message nm (env.jsonDumps (execute_tool env
                          (.str rctx.fileId) (.str rctx.employeeId) maxIter nm
                          (pySetItem kvs "final_tool_call" (.bool fl)) img dup))⟩], rfl⟩⟩
              · rw [if_neg hse] at hm ⊢
                rcases ih false
                  { conversation := tr.conversation
                      ++ [⟨"assistant", env.model (build_messages sys tr.conversation)⟩,
                          ⟨"user", tool_result_message nm (env.jsonDumps (execute_tool env
                            (.str rctx.fileId) (.str rctx.employeeId) maxIter nm
                            (pySetItem kvs "final_tool_call" (.bool fl)) img dup))⟩],
                    calls := tr.calls ++ [(nm, pySetItem kvs "final_tool_call" (.bool fl))],
                    requests := tr.requests ++ [build_messages sys tr.conversation],
                    iterations := tr.iterations + 1 } r hm with hmem | ⟨conv', hc1, ⟨r1, hc2⟩, ⟨r2, hc3⟩⟩
                · rcases List.mem_append.mp hmem with h1 | h2
                  · exact Or.inl h1
                  · refine Or.inr ⟨tr.conversation, List.mem_singleton.mp h2,
                      ⟨[], (List.append_nil _).symm⟩, ?_⟩
                    obtain ⟨rr, hrr⟩ := loop_run_conversation_extends env rctx dup sys img maxIter fuel false
                      { conversation := tr.conversation
                          ++ [⟨"assistant", env.model (build_messages sys tr.conversation)⟩,
                              ⟨"user", tool_result_message nm (env.jsonDumps (execute_tool env
                                (.str rctx.fileId) (.str rctx.employeeId) maxIter nm
                                (pySetItem kvs "final_tool_call" (.bool fl)) img dup))⟩],
                        calls := tr.calls ++ [(nm, pySetItem kvs "final_tool_call" (.bool fl))],
                        requests := tr.requests ++ [build_messages sys tr.conversation],
                        iterations := tr.iterations + 1 }
                    exact ⟨[⟨"assistant", env.model (build_messages sys tr.conversation)⟩,
                        ⟨"user", tool_result_message nm (env.jsonDumps (execute_tool env
                          (.str rctx.fileId) (.str rctx.employeeId) maxIter nm
                          (pySetItem kvs "final_tool_call" (.bool fl)) img dup))⟩] ++ rr,
                      by simp only [hrr, List.append_assoc]⟩
                · exact Or.inr ⟨conv', hc1,
                    ⟨[⟨"assistant", env.model (build_messages sys tr.conversation)⟩,
                        ⟨"user", tool_result_message nm (env.jsonDumps (execute_tool env
                          (.str rctx.fileId) (.str rctx.employeeId) maxIter nm
                          (pySetItem kvs "final_tool_call" (.bool fl)) img dup))⟩] ++ r1,
                      by simp only [hc2, List.append_assoc]⟩, ⟨r2, hc3⟩⟩
            | arr l =>
              rw [loop_run_step_nonobj _ _ _ _ _ _ _ _ _ _ _ _ h hp ht
                (fun _ hh => PyJson.noConfusion hh)] at hm ⊢
              rcases List.mem_append.mp hm with h1 | h2
              · exact Or.inl h1
              · exact Or.inr ⟨tr.conversation, List.mem_singleton.mp h2,
                  ⟨[], (List.append_nil _).symm⟩,
                  ⟨[⟨"assistant", env.model (build_messages sys tr.conversation)⟩], rfl⟩⟩
            | str s =>
              rw [loop_run_step_nonobj _ _ _ _ _ _ _ _ _ _ _ _ h hp ht
                (fun _ hh => PyJson.noConfusion hh)] at hm ⊢
              rcases List.mem_append.mp hm with h1 | h2
              · exact Or.inl h1
              · exact Or.inr ⟨tr.conversation, List.mem_singleton.mp h2,
                  ⟨[], (List.append_nil _).symm⟩,
                  ⟨[⟨"assistant", env.model (build_messages sys tr.conversation)⟩], rfl⟩⟩
            | int n =>
              rw [loop_run_step_nonobj _ _ _ _ _ _ _ _ _ _ _ _ h hp ht
                (fun _ hh => PyJson.noConfusion hh)] at hm ⊢
              rcases List.mem_append.mp hm with h1 | h2
              · exact Or.inl h1
              · exact Or.inr ⟨tr.conversation, List.mem_singleton.mp h2,
                  ⟨[], (List.append_nil _).symm⟩,
                  ⟨[⟨"assistant", env.model (build_messages sys tr.conversation)⟩], rfl⟩⟩
            | bool b =>
              rw [loop_run_step_nonobj _ _ _ _ _ _ _ _ _ _ _ _ h hp ht
                (fun _ hh => PyJson.noConfusion hh)] at hm ⊢
              rcases List.mem_append.mp hm with h1 | h2
              · exact Or.inl h1
              · exact Or.inr ⟨tr.conversation, List.mem_singleton.mp h2,
                  ⟨[], (List.append_nil _).symm⟩,
                  ⟨[⟨"assistant", env.model (build_messages sys tr.conversation)⟩], rfl⟩⟩
            | null =>
              rw [loop_run_step_nonobj _ _ _ _ _ _ _ _ _ _ _ _ h hp ht
                (fun _ hh => PyJson.noConfusion hh)] at hm ⊢
              rcases List.mem_append.mp hm with h1 | h2
              · exact Or.inl h1
              · exact Or.inr ⟨tr.conversation, List.mem_singleton.mp h2,
                  ⟨[], (List.append_nil _).symm⟩,
                  ⟨[⟨"assistant", env.model (build_messages sys tr.conversation)⟩], rfl⟩⟩
          · rw [loop_run_step_unknown _ _ _ _ _ _ _ _ _ _ _ _ h hp ht] at hm ⊢
            rcases ih fl
              { conversation := tr.conversation
                  ++ [⟨"assistant", env.model (build_messages sys tr.conversation)⟩,
                      ⟨"user", tool_error_message nm⟩],
                calls := tr.calls,
                requests := tr.requests ++ [build_messages sys tr.conversation],
                iterations := tr.iterations + 1 } r hm with hmem | ⟨conv', hc1, ⟨r1, hc2⟩, ⟨r2, hc3⟩⟩
            · rcases List.mem_append.mp hmem with h1 | h2
              · exact Or.inl h1
              · refine Or.inr ⟨tr.conversation, List.mem_singleton.mp h2,
                  ⟨[], (List.append_nil _).symm⟩, ?_⟩
                obtain ⟨rr, hrr⟩ := loop_run_conversation_extends env rctx dup sys img maxIter fuel fl
                  { conversation := tr.conversation
                      ++ [⟨"assistant", env.model (build_messages sys tr.conversation)⟩,
                          ⟨"user", tool_error_message nm⟩],
                    calls := tr.calls,
                    requests := tr.requests ++ [build_messages sys tr.conversation],
                    iterations := tr.iterations + 1 }
                exact ⟨[⟨"assistant", env.model (build_messages sys tr.conversation)⟩,
                    ⟨"user", tool_error_message nm⟩] ++ rr,
                  by simp only [hrr, List.append_assoc]⟩
            · exact Or.inr ⟨conv', hc1,
                ⟨[⟨"assistant", env.model (build_messages sys tr.conversation)⟩,
                    ⟨"user", tool_error_message nm⟩] ++ r1,
                  by simp only [hc2, List.append_assoc]⟩, ⟨r2, hc3⟩⟩

/-- Claim C7: every request the loop ever sends to the model is the system
prompt generated from the (loop-invariant) receipt context followed by
the conversation as it stood on that pass: a conversation that extends
the seeded conversation and is itself a prefix of the final
conversation.  The prompt depends only on fields the loop never writes,
so the value computed before the loop equals the prompt regenerated from
the current context on any pass. -/
theorem C7_request_is_prompt_plus_conversation (env : LoopEnv) (rctx : ReceiptCtx)
    (img : String) (dup : Option PyJson) (maxIter : Nat) (conv0 : List Msg) (r : List Msg)
    (hm : r ∈ ((agent_loop env rctx img dup maxIter conv0).trOf).requests) :
    ∃ conv', r = build_messages (generate_system_prompt rctx dup) conv' ∧
      (∃ r1, conv' = (if conv0.isEmpty then
          [⟨"user", initial_user_prompt rctx.receiptType rctx.employeeId (pyTruthyOpt dup)⟩]
        else conv0) ++ r1) ∧
      (∃ r2, ((agent_loop env rctx img dup maxIter conv0).trOf).conversation = conv' ++ r2) := by
  unfold agent_loop at hm ⊢
  dsimp only at hm ⊢
  rcases loop_run_requests_shape env rctx dup (generate_system_prompt rctx dup) img maxIter
      maxIter false
      ⟨(if conv0.isEmpty then
          [⟨"user", initial_user_prompt rctx.receiptType rctx.employeeId (pyTruthyOpt dup)⟩]
        else conv0), [], [], 0⟩ r hm with hmem | hshape
  · exact absurd hmem (by simp)
  · exact hshape

/-- Witness for C7 at a concrete input: the single request of a
one-iteration run over a non-empty starting conversation. -/
theorem C7_request_is_prompt_plus_conversation_witness :
    ∃ conv', build_messages (generate_system_prompt rctxW none) [⟨"user", "hi"⟩] =
        build_messages (generate_system_prompt rctxW none) conv' ∧
      (∃ r1, conv' = (if ([(⟨"user", "hi"⟩ : Msg)] : List Msg).isEmpty then
          [⟨"user", initial_user_prompt rctxW.receiptType rctxW.employeeId (pyTruthyOpt none)⟩]
        else [⟨"user", "hi"⟩]) ++ r1) ∧
      (∃ r2, ((agent_loop env_reasoning_only rctxW "" none 1 [⟨"user", "hi"⟩]).trOf).conversation =
        conv' ++ r2) :=
  C7_request_is_prompt_plus_conversation env_reasoning_only rctxW "" none 1
    [⟨"user", "hi"⟩] (build_messages (generate_system_prompt rctxW none) [⟨"user", "hi"⟩])
    (List.Mem.head _)

set_option maxHeartbeats 1000000 in
/-- Claim C6 (amended): when the model-turn producer's reply at the sole pass
is not parsed as a final tool call, and is not a registered-tool call
with non-object parameters (the corner that raises a `TypeError`
instead), `run` with `maxIterations = 1` returns `status=timeout` after
exactly one model round trip, carrying the full conversation. -/
theorem C6_timeout_boundary (env : LoopEnv) (rctx : ReceiptCtx) (img : String)
    (dup : Option PyJson) (conv0 : List Msg)
    (hnf : ∀ nm ps fl rs,
      parse_response env.jsonLoads (env.model (build_messages (generate_system_prompt rctx dup)
        (if conv0.isEmpty then
          [⟨"user", initial_user_prompt rctx.receiptType rctx.employeeId (pyTruthyOpt dup)⟩]
        else conv0))) = .toolCall nm ps fl rs → fl = false)
    (hobj : ∀ nm ps fl rs,
      parse_response env.jsonLoads (env.model (build_messages (generate_system_prompt rctx dup)
        (if conv0.isEmpty then
          [⟨"user", initial_user_prompt rctx.receiptType rctx.employeeId (pyTruthyOpt dup)⟩]
        else conv0))) = .toolCall nm ps fl rs → nm ∈ available_tools →
        ∃ kvs, ps = .obj kvs) :
    ∃ tr', agent_loop env rctx img dup 1 conv0 =
        .timeout ("Process timed out after " ++ toString (1 : Nat) ++ " iterations") tr' ∧
      tr'.iterations = 1 ∧
      tr'.requests = [build_messages (generate_system_prompt rctx dup)
        (if conv0.isEmpty then
          [⟨"user", initial_user_prompt rctx.receiptType rctx.employeeId (pyTruthyOpt dup)⟩]
        else conv0)] ∧
      ∃ rest, tr'.conversation = (if conv0.isEmpty then
          [⟨"user", initial_user_prompt rctx.receiptType rctx.employeeId (pyTruthyOpt dup)⟩]
        else conv0) ++ rest := by
  unfold agent_loop
  dsimp only
  cases hp : parse_response env.jsonLoads (env.model (build_messages (generate_system_prompt rctx dup)
      (if conv0.isEmpty then
        [⟨"user", initial_user_prompt rctx.receiptType rctx.employeeId (pyTruthyOpt dup)⟩]
      else conv0))) with
  | error m =>
    rw [loop_run_step_error env rctx dup (generate_system_prompt rctx dup) img 1 0
      ⟨(if conv0.isEmpty then
        [⟨"user", initial_user_prompt rctx.receiptType rctx.employeeId (pyTruthyOpt dup)⟩]
      else conv0), [], [], 0⟩ m Nat.one_pos hp]
    rw [loop_run_ceiling env rctx dup (generate_system_prompt rctx dup) img 1 0 _ (Nat.le_refl 1)]
    unfold post_loop
    rw [if_pos (Nat.le_refl 1)]
    exact ⟨_, rfl, rfl, rfl, _, rfl⟩
  | reasoning x =>
    rw [loop_run_step_reasoning env rctx dup (generate_system_prompt rctx dup) img 1 0
      ⟨(if conv0.isEmpty then
        [⟨"user", initial_user_prompt rctx.receiptType rctx.employeeId (pyTruthyOpt dup)⟩]
      else conv0), [], [], 0⟩ x Nat.one_pos hp]
    rw [loop_run_ceiling env rctx dup (generate_system_prompt rctx dup) img 1 0 _ (Nat.le_refl 1)]
    unfold post_loop
    rw [if_pos (Nat.le_refl 1)]
    exact ⟨_, rfl, rfl, rfl, _, rfl⟩
  | toolCall nm ps fl rs =>
    have hfl : fl = false := hnf nm ps fl rs hp
    subst hfl
    by_cases ht : nm ∈ available_tools
    · obtain ⟨kvs, hkvs⟩ := hobj nm ps false rs hp ht
      subst hkvs
      have hse : ¬ (nm = "send_email" ∨ false = true) := by
        rintro (he | hf)
        · subst he
          exact Bool.noConfusion (parse_response_send_email_final _ _ _ _ _ hp)
        · exact Bool.noConfusion hf
      rw [loop_run_step_dispatch env rctx dup (generate_system_prompt rctx dup) img 1 0
        ⟨(if conv0.isEmpty then
        [⟨"user", initial_user_prompt rctx.receiptType rctx.employeeId (pyTruthyOpt dup)⟩]
      else conv0), [], [], 0⟩ nm kvs false rs Nat.one_pos hp ht]
      rw [if_neg hse]
      rw [loop_run_ceiling env rctx dup (generate_system_prompt rctx dup) img 1 0 _ (Nat.le_refl 1)]
      unfold post_loop
      rw [if_pos (Nat.le_refl 1)]
      exact ⟨_, rfl, rfl, rfl, _, rfl⟩
    · rw [loop_run_step_unknown env rctx dup (generate_system_prompt rctx dup) img 1 0
        ⟨(if conv0.isEmpty then
        [⟨"user", initial_user_prompt rctx.receiptType rctx.employeeId (pyTruthyOpt dup)⟩]
      else conv0), [], [], 0⟩ nm ps false rs Nat.one_pos hp ht]
      rw [loop_run_ceiling env rctx dup (generate_system_prompt rctx dup) img 1 0 _ (Nat.le_refl 1)]
      unfold post_loop
      rw [if_pos (Nat.le_refl 1)]
      exact ⟨_, rfl, rfl, rfl, _, rfl⟩

/-- Witness for C6 at a concrete input: a producer that always replies
with a reasoning-only turn times out after exactly one round trip with
`maxIterations = 1`. -/
theorem C6_timeout_boundary_witness :
    ∃ tr', agent_loop env_reasoning_only rctxW "" none 1 [⟨"user", "hi"⟩] =
        .timeout ("Process timed out after " ++ toString (1 : Nat) ++ " iterations") tr' ∧
      tr'.iterations = 1 ∧
      tr'.requests = [build_messages (generate_system_prompt rctxW none)
        (if ([(⟨"user", "hi"⟩ : Msg)] : List Msg).isEmpty then
          [⟨"user", initial_user_prompt rctxW.receiptType rctxW.employeeId (pyTruthyOpt none)⟩]
        else [⟨"user", "hi"⟩])] ∧
      ∃ rest, tr'.conversation = (if ([(⟨"user", "hi"⟩ : Msg)] : List Msg).isEmpty then
          [⟨"user", initial_user_prompt rctxW.receiptType rctxW.employeeId (pyTruthyOpt none)⟩]
        else [⟨"user", "hi"⟩]) ++ rest :=
  C6_timeout_boundary env_reasoning_only rctxW "" none [⟨"user", "hi"⟩]
    (fun _ _ _ _ hh => ParsedResponse.noConfusion hh)
    (fun _ _ _ _ hh => ParsedResponse.noConfusion hh)

/-- Counterexample for C6 as stated: a producer that never emits a final
tool call (its reply parses to a non-final `get_employee_data` call with
JSON-string parameters) makes the run with `maxIterations = 1` raise an
uncaught `TypeError` instead of returning `status=timeout`. -/
theorem C6_counterexample :
    parse_response jlW "<tool>get_employee_data</tool><parameters>\"x\"</parameters>" =
      .toolCall "get_employee_data" (.str "x") false "" ∧
    (agent_loop env_params_string rctxW "" none 1 []).statusOf = "raised" :=
  ⟨rfl, rfl⟩

/-- Claim C4 (code bug): a parameters block whose body is the JSON array
`[1, 2]` — valid JSON but not an object — is accepted by
`_parse_response` as a ToolCall rather than rejected with the
invalid-JSON error, and the loop then raises an uncaught `TypeError` on
`tool_params["final_tool_call"] = is_final_call`. -/
theorem C4_nonobject_parameters_accepted :
    parse_response jlW "<tool>get_employee_data</tool><parameters>[1, 2]</parameters>" =
      .toolCall "get_employee_data" (.arr [.int 1, .int 2]) false "" ∧
    parse_response jlW "<tool>get_employee_data</tool><parameters>[1, 2]</parameters>" ≠
      .error "Invalid JSON in parameters" ∧
    (agent_loop env_params_array rctxW "" none 10 []).statusOf = "raised" :=
  ⟨rfl, fun h => ParsedResponse.noConfusion h, rfl⟩

theorem occursFromFuel_some (pat s : List Char) :
    ∀ (fuel start i : Nat), occursFromFuel pat s start fuel = some i →
      start ≤ i ∧ i + pat.length ≤ s.length ∧ pat.isPrefixOf (s.drop i) = true ∧
      ∀ m, start ≤ m → m < i → pat.isPrefixOf (s.drop m) = false := by
  intro fuel
  induction fuel with
  | zero =>
    intro start i h
    exact absurd h (by simp [occursFromFuel])
  | succ fuel ih =>
    intro start i h
    rw [occursFromFuel] at h
    split at h
    case isTrue hb =>
      split at h
      case isTrue hpre =>
        obtain rfl : start = i := Option.some.inj h
        exact ⟨le_refl _, hb, hpre, fun m h1 h2 => absurd (lt_of_le_of_lt h1 h2) (lt_irrefl _)⟩
      case isFalse hpre =>
        obtain ⟨h1, h2, h3, h4⟩ := ih (start + 1) i h
        refine ⟨by omega, h2, h3, ?_⟩
        intro m hm1 hm2
        rcases Nat.eq_or_lt_of_le hm1 with he | hl
        · rw [← he]
          exact Bool.eq_false_iff.mpr hpre
        · exact h4 m hl hm2
    case isFalse =>
      exact absurd h (by simp)

theorem occursFromFuel_none (pat s : List Char) :
    ∀ (fuel start : Nat), s.length + 1 ≤ fuel + start →
      occursFromFuel pat s start fuel = none →
      ∀ m, start ≤ m → m + pat.length ≤ s.length → pat.isPrefixOf (s.drop m) = false := by
  intro fuel
  induction fuel with
  | zero =>
    intro start hf _ m hm1 hm2
    omega
  | succ fuel ih =>
    intro start hf h m hm1 hm2
    rw [occursFromFuel] at h
    split at h
    case isTrue hb =>
      split at h
      case isTrue hpre => exact absurd h (by simp)
      case isFalse hpre =>
        rcases Nat.eq_or_lt_of_le hm1 with he | hl
        · rw [← he]
          exact Bool.eq_false_iff.mpr hpre
        · exact ih (start + 1) (by omega) h m hl hm2
    case isFalse hb => omega

theorem occursFrom_some (pat s : List Char) (start i : Nat)
    (h : occursFrom pat s start = some i) :
    start ≤ i ∧ i + pat.length ≤ s.length ∧ pat.isPrefixOf (s.drop i) = true ∧
    ∀ m, start ≤ m → m < i → pat.isPrefixOf (s.drop m) = false :=
  occursFromFuel_some pat s _ start i h

theorem occursFrom_none (pat s : List Char) (start : Nat)
    (h : occursFrom pat s start = none) :
    ∀ m, start ≤ m → m + pat.length ≤ s.length → pat.isPrefixOf (s.drop m) = false :=
  occursFromFuel_none pat s _ start (by omega) h

theorem occursFrom_eq_some (pat s : List Char) (start i : Nat)
    (h1 : start ≤ i) (h2 : i + pat.length ≤ s.length)
    (h3 : pat.isPrefixOf (s.drop i) = true)
    (h4 : ∀ m, start ≤ m → m < i → m + pat.length ≤ s.length →
      pat.isPrefixOf (s.drop m) = false) :
    occursFrom pat s start = some i := by
  cases ho : occursFrom pat s start with
  | none => exact absurd h3 (by simp [occursFrom_none pat s start ho i h1 h2])
  | some j =>
    obtain ⟨g1, g2, g3, g4⟩ := occursFrom_some pat s start j ho
    rcases Nat.lt_trichotomy i j with hl | he | hg
    · exact absurd h3 (by simp [g4 i h1 hl])
    · rw [he]
    · exact absurd g3 (by simp [h4 j g1 hg g2])

theorem isPrefixOf_length_le (pat : List Char) :
    ∀ l : List Char, pat.isPrefixOf l = true → pat.length ≤ l.length := by
  induction pat with
  | nil => intro l _; simp
  | cons a as ih =>
    intro l h
    cases l with
    | nil => exact absurd h (by simp [List.isPrefixOf])
    | cons b bs =>
      simp only [List.isPrefixOf, Bool.and_eq_true] at h
      simpa using Nat.succ_le_succ (ih bs h.2)

theorem isPrefixOf_take (pat : List Char) :
    ∀ (l : List Char) (n : Nat), pat.length ≤ n →
      pat.isPrefixOf (l.take n) = pat.isPrefixOf l := by
  induction pat with
  | nil => intro l n _; simp [List.isPrefixOf]
  | cons a as ih =>
    intro l n h
    cases l with
    | nil => simp
    | cons b bs =>
      cases n with
      | zero => simp at h
      | succ n =>
        simp only [List.take, List.isPrefixOf]
        rw [ih bs n (by simpa using h)]

theorem occursFrom_take (pat s : List Char) (start i k : Nat) (hp : 0 < pat.length)
    (h : occursFrom pat s start = some i) (hik : i + pat.length ≤ k) :
    occursFrom pat (s.take k) start = some i := by
  obtain ⟨h1, h2, h3, h4⟩ := occursFrom_some pat s start i h
  apply occursFrom_eq_some
  · exact h1
  · rw [List.length_take]
    exact Nat.le_min.mpr ⟨hik, h2⟩
  · rw [List.drop_take, isPrefixOf_take pat _ (k - i) (by omega)]
    exact h3
  · intro m hm1 hm2 hm3
    rw [List.length_take] at hm3
    rw [List.drop_take, isPrefixOf_take pat _ (k - m) (by omega)]
    exact h4 m hm1 hm2

theorem matchToolBlockFrom_inv (s : List Char) (pos i j : Nat)
    (h : matchToolBlockFrom s pos = some (i, j)) :
    occursFrom (tagOpen "tool") s pos = some i ∧
    occursFrom (tagClose "tool") s (i + (tagOpen "tool").length) = some j := by
  unfold matchToolBlockFrom at h
  split at h
  · exact absurd h (by simp)
  case _ i' heq =>
    split at h
    · exact absurd h (by simp)
    case _ j' heq2 =>
      obtain ⟨rfl, rfl⟩ : i' = i ∧ j' = j := by
        have := Option.some.inj h
        exact ⟨congrArg Prod.fst this, congrArg Prod.snd this⟩
      exact ⟨heq, heq2⟩

/-- Claim C3 (amended): with at least two tool blocks, `_parse_response` acts
only on the prefix up to the second `<tool>` opener — the trailing text
is discarded (`parse_response` equals `parseCore` of the truncated
prefix) — and, when the second opener starts at or after the end of the
first block, any returned ToolCall carries the trimmed content of the
first block as its tool name.  (When a stray `<tool>` opener lies inside
the first block's body, the truncation cuts the block and the parse
returns an error instead — see the counterexample.) -/
theorem C3_multi_block_first (jl : String → Option PyJson) (t : String)
    (i j i2 j2 k : Nat)
    (H1 : matchToolBlockFrom t.toList 0 = some (i, j))
    (H2 : matchToolBlockFrom t.toList (j + (tagClose "tool").length) = some (i2, j2))
    (H3 : occursFrom (tagOpen "tool") t.toList (i + 1) = some k)
    (H4 : j + (tagClose "tool").length ≤ k) :
    parse_response jl t = parseCore jl (t.toList.take k) ∧
    ∀ nm ps fl rs, parse_response jl t = .toolCall nm ps fl rs →
      nm = (pyStrip ((t.toList.drop (i + (tagOpen "tool").length)).take
        (j - (i + (tagOpen "tool").length)))).asString := by
  obtain ⟨Ho, Hc⟩ := matchToolBlockFrom_inv t.toList 0 i j H1
  have hm : multipleToolBlocks t.toList = true := by
    unfold multipleToolBlocks
    rw [H1]
    dsimp only
    rw [H2]
    rfl
  have htrunc : truncateMultiBlocks t.toList = t.toList.take k := by
    unfold truncateMultiBlocks
    rw [hm]
    simp only [if_true]
    rw [Ho]
    dsimp only
    rw [H3]
  have hone : parse_response jl t = parseCore jl (t.toList.take k) := by
    unfold parse_response
    rw [htrunc]
  refine ⟨hone, ?_⟩
  have hij : i + (tagOpen "tool").length ≤ j := (occursFrom_some _ _ _ _ Hc).1
  have hjk : j + (tagClose "tool").length ≤ t.toList.length := (occursFrom_some _ _ _ _ Hc).2.1
  have hsearch : searchTagBlock "tool" (t.toList.take k) =
      some ((t.toList.drop (i + (tagOpen "tool").length)).take
        (j - (i + (tagOpen "tool").length))) := by
    unfold searchTagBlock
    rw [occursFrom_take (tagOpen "tool") t.toList 0 i k (by decide) Ho (by omega)]
    dsimp only
    rw [occursFrom_take (tagClose "tool") t.toList (i + (tagOpen "tool").length) j k
      (by decide) Hc (by omega)]
    dsimp only
    rw [List.drop_take, List.take_take, min_eq_left (by omega)]
  intro nm ps fl rs hp
  rw [hone] at hp
  obtain ⟨c, hc1, hc2, _⟩ := parse_tool_call_shape jl _ _ _ _ _ (parseCore_toolCall jl _ _ _ _ _ hp)
  rw [hsearch] at hc1
  rw [hc2, Option.some.inj hc1]

/-- Witness for C3 at a concrete input: two disjoint tool blocks; the
parse acts on the first block only. -/
theorem C3_multi_block_first_witness :
    parse_response jlW "<tool>a</tool><tool>b</tool>" =
      parseCore jlW (("<tool>a</tool><tool>b</tool>" : String).toList.take 14) ∧
    ∀ nm ps fl rs, parse_response jlW "<tool>a</tool><tool>b</tool>" = .toolCall nm ps fl rs →
      nm = (pyStrip ((("<tool>a</tool><tool>b</tool>" : String).toList.drop
        (0 + (tagOpen "tool").length)).take (7 - (0 + (tagOpen "tool").length)))).asString :=
  C3_multi_block_first jlW "<tool>a</tool><tool>b</tool>" 0 7 14 21 14 rfl rfl rfl (by decide)

/-- Counterexample for C3 as stated: a stray `<tool>` opener inside the
first block's body makes the truncation cut the first block, so a reply
with two (non-overlapping-match) tool blocks parses to an error instead
of a ToolCall named after the first block's content. -/
theorem C3_counterexample :
    multipleToolBlocks ("<tool>x<tool>y</tool><tool>z</tool>" : String).toList = true ∧
    parse_response jlW "<tool>x<tool>y</tool><tool>z</tool>" =
      .error "No tool specified in the response" :=
  ⟨rfl, rfl⟩
